import Mathlib

/-!
Shallow embedding of the card-mixing core of the flashcard application
(`src/lib/cardMixingUtils.ts`, `src/lib/flashcardStorage.ts`,
`src/types/flashcard.ts`) together with proofs of the specified
properties.

Modelling conventions:
* JavaScript numbers that hold integral values (card counts, timestamps)
  are modelled as `Int`; array lengths and indices are `Nat`.
* `Date` values are modelled as epoch milliseconds (`Int`).
* A JavaScript object used as a map (`Record<string, T>`) is modelled as a
  function `String → Option T`; `obj[k] || []` becomes
  `(m k).getD []`.
* `Math.random()` is modelled by an oracle `rand : Nat → Nat`: at loop
  counter `i`, `Math.floor(Math.random() * (i + 1))` is modelled as
  `rand i % (i + 1)`, which ranges exactly over `[0, i]`.
* Functions are pure; mutation of `localStorage` is modelled by explicit
  state passing (`Option FlashcardStorage`, `none` = absent document)
  plus a `wrote` flag recording whether the operation performed a write.
-/

/-- Deck record from `src/types/flashcard.ts` (`interface Deck`).
`createdAt` is epoch milliseconds. -/
structure Deck where
  id : String
  name : String
  color : String
  createdAt : Int
  cardCount : Int
  deriving Repr, DecidableEq

/-- Card record from `src/types/flashcard.ts` (`interface Card`). -/
structure Card where
  id : String
  deckId : String
  front : String
  back : String
  createdAt : Int
  deriving Repr, DecidableEq

/-- MixedCard from `src/types/flashcard.ts`: a `Card` plus deck metadata
and a position in the mixed layout. -/
structure MixedCard extends Card where
  deckName : String
  deckColor : String
  position : Nat
  deriving Repr, DecidableEq

/-- Grid layout configuration from `src/types/flashcard.ts`. -/
structure GridLayout where
  rows : Int
  cols : Int
  deriving Repr, DecidableEq

/-- JavaScript `x || dflt` for `x : string | undefined`: the default is
used when `x` is `undefined` and also when `x` is the empty string
(the empty string is falsy in JavaScript). -/
def jsOrString (v : Option String) (dflt : String) : String :=
  match v with
  | some s => if s = "" then dflt else s
  | none => dflt

/-- Ceiling division on naturals: `ceilDiv m b = ⌈m / b⌉` for `b > 0`,
modelling JavaScript `Math.ceil(m / b)` on non-negative integral `m`. -/
def ceilDiv (m b : Nat) : Nat :=
  (m + b - 1) / b

/-- Ceiling of the real square root of a natural number:
`ceilSqrt n` is `Nat.sqrt n` when `n` is a perfect square and
`Nat.sqrt n + 1` otherwise, i.e. the least `k` with `n ≤ k * k`.
Models JavaScript `Math.ceil(Math.sqrt(n))` for non-negative integral
`n`. -/
def ceilSqrt (n : Nat) : Nat :=
  if Nat.sqrt n * Nat.sqrt n = n then Nat.sqrt n else Nat.sqrt n + 1

/-- Embedding of `calculateGridLayout` (`src/lib/cardMixingUtils.ts`,
lines 72–97). -/
def calculateGridLayout (cardCount : Int) : GridLayout :=
  if cardCount ≤ 0 then
    { rows := 0, cols := 0 }
  else if cardCount ≤ 3 then
    { rows := 1, cols := cardCount }
  else if cardCount ≤ 6 then
    { rows := 2, cols := (ceilDiv cardCount.toNat 2 : Nat) }
  else if cardCount ≤ 9 then
    { rows := 3, cols := (ceilDiv cardCount.toNat 3 : Nat) }
  else
    let cols := ceilSqrt cardCount.toNat
    { rows := (ceilDiv cardCount.toNat cols : Nat), cols := (cols : Nat) }

/-- Embedding of `combineCardsFromDecks` (`src/lib/cardMixingUtils.ts`,
lines 24–36): iterate `selectedDeckIds` in order, appending each deck's
card list (or the empty list for an unknown identifier). -/
def combineCardsFromDecks (selectedDeckIds : List String)
    (allCards : String → Option (List Card)) : List Card :=
  selectedDeckIds.foldl
    (fun combinedCards deckId => combinedCards ++ (allCards deckId).getD []) []

/-- Embedding of `getTotalAvailableCards` (`src/lib/cardMixingUtils.ts`,
lines 102–110): sum of the selected decks' card-list lengths. -/
def getTotalAvailableCards (selectedDeckIds : List String)
    (allCards : String → Option (List Card)) : Nat :=
  selectedDeckIds.foldl
    (fun total deckId => total + ((allCards deckId).getD []).length) 0

/-- Error message for the `NoDecksSelected` failure (source line 121). -/
def noDecksSelectedError : String := "Please select at least one deck"

/-- Error message for the `InvalidCount` failure (source line 125). -/
def invalidCountError : String := "Number of cards must be greater than 0"

/-- Error message for the `EmptyDecks` failure (source line 131). -/
def emptyDecksError : String := "Selected decks contain no cards"

/-- Error message for the `InsufficientCards` failure (source line 137):
the interpolated template string. -/
def insufficientCardsError (requested : Int) (avail : Nat) : String :=
  s!"Requested {requested} cards but only {avail} available"

/-- Result shape of `validateCardMixingParams`:
`{ valid: boolean; error?: string; maxAvailable?: number }`. -/
structure ValidationResult where
  valid : Bool
  error : Option String
  maxAvailable : Option Int
  deriving Repr, DecidableEq

/-- Embedding of `validateCardMixingParams` (`src/lib/cardMixingUtils.ts`,
lines 115–143). Checks run in order, first failure wins. -/
def validateCardMixingParams (selectedDeckIds : List String)
    (requestedCount : Int)
    (allCards : String → Option (List Card)) : ValidationResult :=
  if selectedDeckIds.length = 0 then
    { valid := false, error := some noDecksSelectedError, maxAvailable := none }
  else if requestedCount ≤ 0 then
    { valid := false, error := some invalidCountError, maxAvailable := none }
  else
    let totalAvailable := getTotalAvailableCards selectedDeckIds allCards
    if totalAvailable = 0 then
      { valid := false, error := some emptyDecksError, maxAvailable := none }
    else if requestedCount > (totalAvailable : Int) then
      { valid := false,
        error := some (insufficientCardsError requestedCount totalAvailable),
        maxAvailable := some (totalAvailable : Int) }
    else
      { valid := true, error := none, maxAvailable := none }

/-- Swap the entries at positions `i` and `j` of a list, modelling the
destructuring-assignment swap inside the Fisher–Yates loop
(`[shuffled[i], shuffled[j]] = [shuffled[j], shuffled[i]]`). Out-of-range
indices leave the list unchanged (the source loop never produces them). -/
def listSwap {T : Type} (l : List T) (i j : Nat) : List T :=
  if h : i < l.length ∧ j < l.length then
    (l.set i (l.get ⟨j, h.2⟩)).set j (l.get ⟨i, h.1⟩)
  else l

/-- The Fisher–Yates loop of `shuffleCards` (`src/lib/cardMixingUtils.ts`,
lines 13–16), running the counter from `i` down to `1`: at counter `c`,
`j = Math.floor(Math.random() * (c + 1))` is modelled as
`rand c % (c + 1)`. -/
def fisherYatesRun {T : Type} (rand : Nat → Nat) : Nat → List T → List T
  | 0, l => l
  | i + 1, l => fisherYatesRun rand i (listSwap l (i + 1) (rand (i + 1) % (i + 1 + 1)))

/-- Embedding of `shuffleCards` (`src/lib/cardMixingUtils.ts`,
lines 10–19): copy the array (`[...array]` — the embedding is pure, so
the copy is implicit) and run the Fisher–Yates loop from index
`length - 1` down to `1`. -/
def shuffleCards {T : Type} (rand : Nat → Nat) (array : List T) : List T :=
  fisherYatesRun rand (array.length - 1) array

/-- JavaScript `l.slice(0, endIdx)`: a negative `endIdx` counts from the
end of the array (`endIdx' = max(length + endIdx, 0)`); a non-negative
one is clamped to the length. -/
def jsSliceFromZero {T : Type} (l : List T) (endIdx : Int) : List T :=
  if endIdx < 0 then l.take ((l.length : Int) + endIdx).toNat
  else l.take endIdx.toNat

/-- Embedding of `selectRandomCards` (`src/lib/cardMixingUtils.ts`,
lines 41–48): full shuffle when `count >= cards.length`, otherwise
`shuffle.slice(0, count)`. -/
def selectRandomCards (rand : Nat → Nat) (cards : List Card) (count : Int) :
    List Card :=
  if count ≥ (cards.length : Int) then shuffleCards rand cards
  else jsSliceFromZero (shuffleCards rand cards) count

/-- Embedding of `createMixedCards` (`src/lib/cardMixingUtils.ts`,
lines 53–67): decorate each card with its deck's name and color
(`deck?.name || 'Unknown Deck'`, `deck?.color || '#6B7280'` — JavaScript
`||`, so an empty-string name or color also falls back) and its index as
`position`. -/
def createMixedCards (cards : List Card) (decks : String → Option Deck) :
    List MixedCard :=
  cards.mapIdx fun index card =>
    { toCard := card
      deckName := jsOrString ((decks card.deckId).map Deck.name) "Unknown Deck"
      deckColor := jsOrString ((decks card.deckId).map Deck.color) "#6B7280"
      position := index }

/-- Result shape of `mixCards`:
`{ success: boolean; mixedCards?: MixedCard[]; error?: string }`. -/
structure MixCardsResult where
  success : Bool
  mixedCards : Option (List MixedCard)
  error : Option String
  deriving Repr, DecidableEq

/-- Embedding of `mixCards` (`src/lib/cardMixingUtils.ts`, lines
161–190): validate, then combine → select → decorate. The source wraps
the three steps in `try`/`catch`; in this pure embedding every step is a
total function, so the `catch` branch is unreachable and the function
returns the success record on every validated input. -/
def mixCards (rand : Nat → Nat) (selectedDeckIds : List String)
    (requestedCount : Int) (allCards : String → Option (List Card))
    (allDecks : String → Option Deck) : MixCardsResult :=
  let validation := validateCardMixingParams selectedDeckIds requestedCount allCards
  if validation.valid = false then
    { success := false, mixedCards := none, error := validation.error }
  else
    let combinedCards := combineCardsFromDecks selectedDeckIds allCards
    let selectedCards := selectRandomCards rand combinedCards requestedCount
    let mixedCards := createMixedCards selectedCards allDecks
    { success := true, mixedCards := some mixedCards, error := none }

/-- CardMixingSession from `src/types/flashcard.ts`; `timestamp` is
epoch milliseconds. -/
structure CardMixingSession where
  id : String
  selectedDeckIds : List String
  cardCount : Int
  timestamp : Int
  deriving Repr, DecidableEq

/-- FlashcardStorage from `src/types/flashcard.ts`: the single durable
document. The `decks` and `cards` maps (owned by the excluded storage
layer) are modelled as association lists so that states stay decidable. -/
structure FlashcardStorage where
  decks : List (String × Deck)
  cards : List (String × List Card)
  mixingSessions : List CardMixingSession
  version : String
  deriving Repr, DecidableEq

/-- The `STORAGE_VERSION` constant of `src/lib/flashcardStorage.ts`. -/
def STORAGE_VERSION : String := "1.0.0"

/-- The initial empty document built by `initializeStorage`
(`src/lib/flashcardStorage.ts`, lines 82–91). -/
def emptyStorageData : FlashcardStorage :=
  { decks := [], cards := [], mixingSessions := [], version := STORAGE_VERSION }

/-- Outcome of a storage-manager operation: its return value, the durable
document afterwards (`none` = still absent), and whether the operation
performed a write to the durable store (`localStorage.setItem`). -/
structure StorageEff (α : Type) where
  result : α
  store : Option FlashcardStorage
  wrote : Bool
  deriving Repr, DecidableEq

/-- Embedding of `initializeStorage` (`src/lib/flashcardStorage.ts`,
lines 82–91): build the empty document, save it to the durable store
(a write), and return it. -/
def initializeStorage : StorageEff FlashcardStorage :=
  { result := emptyStorageData, store := some emptyStorageData, wrote := true }

/-- Embedding of `getStorageData` (`src/lib/flashcardStorage.ts`, lines
38–77): when the durable document is absent, initialize storage (which
writes); otherwise return the parsed document unchanged with no write.
The JSON round-trip and the date revival are identities in this typed
model, and a missing `mixingSessions` field is represented by the empty
list the source substitutes for it. -/
def getStorageData (st : Option FlashcardStorage) : StorageEff FlashcardStorage :=
  match st with
  | none => initializeStorage
  | some d => { result := d, store := some d, wrote := false }

/-- Embedding of `getMixingSessions` (`src/lib/flashcardStorage.ts`,
lines 211–219): read the document and return its session list. -/
def getMixingSessions (st : Option FlashcardStorage) :
    StorageEff (List CardMixingSession) :=
  let e := getStorageData st
  { result := e.result.mixingSessions, store := e.store, wrote := e.wrote }

/-- Embedding of `getRecentMixingSessions` (`src/lib/flashcardStorage.ts`,
lines 270–273): the first 5 entries of the session list. -/
def getRecentMixingSessions (st : Option FlashcardStorage) :
    StorageEff (List CardMixingSession) :=
  let e := getMixingSessions st
  { result := e.result.take 5, store := e.store, wrote := e.wrote }

/-- Embedding of `saveMixingSession` (`src/lib/flashcardStorage.ts`,
lines 224–241). `now` models `new Date()` / `Date.now()` and `freshId`
the generated `mixing_..._...` identifier. The new session is prepended,
the list truncated to its first 10 entries, and the document saved. -/
def saveMixingSession (now : Int) (freshId : String)
    (selectedDeckIds : List String) (cardCount : Int)
    (st : Option FlashcardStorage) : StorageEff CardMixingSession :=
  let e := getStorageData st
  let data := e.result
  let newSession : CardMixingSession :=
    { id := freshId, selectedDeckIds := selectedDeckIds,
      cardCount := cardCount, timestamp := now }
  let sessions := (newSession :: data.mixingSessions).take 10
  { result := newSession,
    store := some { data with mixingSessions := sessions },
    wrote := true }

/-- Milliseconds in one day. -/
def msPerDay : Int := 86400000

/-- Embedding of `cleanupOldMixingSessions` (`src/lib/flashcardStorage.ts`,
lines 255–265): keep exactly the sessions whose timestamp is strictly
newer than thirty days before `now` (`session.timestamp > thirtyDaysAgo`),
then save. The source computes the cutoff with `setDate(getDate() - 30)`;
in the epoch-millisecond model that is `now - 30 * msPerDay`. -/
def cleanupOldMixingSessions (now : Int) (st : Option FlashcardStorage) :
    StorageEff Unit :=
  let e := getStorageData st
  let data := e.result
  let thirtyDaysAgo := now - 30 * msPerDay
  let kept := data.mixingSessions.filter fun s => thirtyDaysAgo < s.timestamp
  { result := (),
    store := some { data with mixingSessions := kept },
    wrote := true }

/-- Record a list of sessions in order through `saveMixingSession`
(each entry supplies the timestamp and fresh identifier of its call),
threading the durable store. -/
def recordAll (entries : List CardMixingSession)
    (st : Option FlashcardStorage) : Option FlashcardStorage :=
  entries.foldl
    (fun acc s =>
      (saveMixingSession s.timestamp s.id s.selectedDeckIds s.cardCount acc).store)
    st

/-- Fixture: a deterministic random oracle (always drawing index 0). -/
def wRand : Nat → Nat := fun _ => 0

/-- Fixture: three concrete cards in deck `d1`. -/
def wCards3List : List Card :=
  [{ id := "c1", deckId := "d1", front := "f1", back := "b1", createdAt := 0 },
   { id := "c2", deckId := "d1", front := "f2", back := "b2", createdAt := 0 },
   { id := "c3", deckId := "d1", front := "f3", back := "b3", createdAt := 0 }]

/-- Fixture: a card map holding the three cards of `wCards3List` under
deck `d1`. -/
def wCards3 : String → Option (List Card) :=
  fun d => if d = "d1" then some wCards3List else none

/-- Session list currently held by the durable store (`[]` when the
document is absent). -/
def storedSessions (st : Option FlashcardStorage) : List CardMixingSession :=
  match st with
  | none => []
  | some d => d.mixingSessions

/-- Fixture: a session recorded 31 days before time `100 * msPerDay`. -/
def wOldSession : CardMixingSession :=
  { id := "old", selectedDeckIds := ["d1"], cardCount := 3,
    timestamp := 100 * msPerDay - 31 * msPerDay }

/-- Fixture: a session recorded 29 days before time `100 * msPerDay`. -/
def wNewSession : CardMixingSession :=
  { id := "new", selectedDeckIds := ["d1"], cardCount := 2,
    timestamp := 100 * msPerDay - 29 * msPerDay }

/-- Fixture: a durable document holding the old and the new session. -/
def wStorageTwoSessions : FlashcardStorage :=
  { decks := [], cards := [], mixingSessions := [wNewSession, wOldSession],
    version := STORAGE_VERSION }

/-- Fixture: eleven concrete mixing sessions. -/
def wSessions11 : List CardMixingSession :=
  (List.range 11).map fun i =>
    { id := toString i, selectedDeckIds := ["d1"], cardCount := 1,
      timestamp := (i : Int) }

/-- Fixture: a concrete deck `d1` with a non-empty name and color. -/
def wDeck1 : Deck :=
  { id := "d1", name := "Deck One", color := "#3B82F6", createdAt := 0,
    cardCount := 3 }

/-- Fixture: a deck map holding `wDeck1` under `d1`. -/
def wDecks : String → Option Deck :=
  fun d => if d = "d1" then some wDeck1 else none

/-- Fixture: a single-card map for deck `d1`. -/
def wCards1 : String → Option (List Card) :=
  fun d =>
    if d = "d1" then
      some [{ id := "c1", deckId := "d1", front := "f", back := "b", createdAt := 0 }]
    else none

/-- Fixture: deck `d1` whose stored display name is the empty string. -/
def wDecksEmptyName : String → Option Deck :=
  fun d =>
    if d = "d1" then
      some { id := "d1", name := "", color := "#123456", createdAt := 0, cardCount := 1 }
    else none

/-- Folding append over a list starting from an accumulator is the
accumulator followed by the flattened mapped lists. -/
theorem foldl_append_flatten {α β : Type} (f : α → List β) :
    ∀ (ids : List α) (acc : List β),
      ids.foldl (fun c d => c ++ f d) acc = acc ++ (ids.map f).flatten := by
  intro ids
  induction ids with
  | nil => intro acc; simp
  | cons d rest ih => intro acc; simp [ih, List.append_assoc]

/-- Folding addition over a list starting from an accumulator is the
accumulator plus the sum of the mapped values. -/
theorem foldl_add_sum {α : Type} (g : α → Nat) :
    ∀ (ids : List α) (acc : Nat),
      ids.foldl (fun t d => t + g d) acc = acc + (ids.map g).sum := by
  intro ids
  induction ids with
  | nil => intro acc; simp
  | cons d rest ih => intro acc; simp [ih, Nat.add_assoc]

/-- The combiner is the flattening of the per-deck card lists. -/
theorem combineCardsFromDecks_eq_flatten (selectedDeckIds : List String)
    (allCards : String → Option (List Card)) :
    combineCardsFromDecks selectedDeckIds allCards =
      (selectedDeckIds.map fun d => (allCards d).getD []).flatten := by
  simpa using foldl_append_flatten (fun d => (allCards d).getD []) selectedDeckIds []

/-- The validator's total-available count is exactly the length of the
combiner's pool. -/
theorem getTotalAvailableCards_eq_length (selectedDeckIds : List String)
    (allCards : String → Option (List Card)) :
    getTotalAvailableCards selectedDeckIds allCards =
      (combineCardsFromDecks selectedDeckIds allCards).length := by
  rw [combineCardsFromDecks_eq_flatten, List.length_flatten, List.map_map]
  simpa [Function.comp] using
    foldl_add_sum (fun d => ((allCards d).getD []).length) selectedDeckIds 0

/-- Claim C9: `combineCardsFromDecks` concatenates the selected decks'
card lists in the order supplied, an unknown identifier contributing the
empty list, preserving within-deck order, concatenating over list
concatenation, and duplicating the cards of a deck identifier that
appears twice. -/
theorem combineCardsFromDecks_spec :
    ∀ (selectedDeckIds : List String) (allCards : String → Option (List Card)),
      (combineCardsFromDecks selectedDeckIds allCards =
        (selectedDeckIds.map fun d => (allCards d).getD []).flatten) ∧
      (∀ ids₂ : List String,
        combineCardsFromDecks (selectedDeckIds ++ ids₂) allCards =
          combineCardsFromDecks selectedDeckIds allCards ++
            combineCardsFromDecks ids₂ allCards) ∧
      (∀ d : String,
        combineCardsFromDecks [d, d] allCards =
          (allCards d).getD [] ++ (allCards d).getD []) := by
  intro selectedDeckIds allCards
  refine ⟨combineCardsFromDecks_eq_flatten selectedDeckIds allCards, ?_, ?_⟩
  · intro ids₂
    simp [combineCardsFromDecks_eq_flatten, List.map_append, List.flatten_append]
  · intro d
    simp [combineCardsFromDecks_eq_flatten [d, d] allCards]

/-- Claim C2: `validateCardMixingParams` performs its checks in order
with the first failure winning: empty selection → `NoDecksSelected`
message; then non-positive count → `InvalidCount` message; then zero
total available → `EmptyDecks` message; then count above the total →
`InsufficientCards` message carrying `maxAvailable` equal to the total;
otherwise valid. The embedding is a pure function, so the call has no
side effects. -/
theorem validateCardMixingParams_ordered :
    ∀ (selectedDeckIds : List String) (requestedCount : Int)
      (allCards : String → Option (List Card)),
      (selectedDeckIds = [] →
        validateCardMixingParams selectedDeckIds requestedCount allCards =
          { valid := false, error := some noDecksSelectedError, maxAvailable := none }) ∧
      (selectedDeckIds ≠ [] → requestedCount ≤ 0 →
        validateCardMixingParams selectedDeckIds requestedCount allCards =
          { valid := false, error := some invalidCountError, maxAvailable := none }) ∧
      (selectedDeckIds ≠ [] → 0 < requestedCount →
        getTotalAvailableCards selectedDeckIds allCards = 0 →
        validateCardMixingParams selectedDeckIds requestedCount allCards =
          { valid := false, error := some emptyDecksError, maxAvailable := none }) ∧
      (selectedDeckIds ≠ [] → 0 < requestedCount →
        getTotalAvailableCards selectedDeckIds allCards ≠ 0 →
        (getTotalAvailableCards selectedDeckIds allCards : Int) < requestedCount →
        validateCardMixingParams selectedDeckIds requestedCount allCards =
          { valid := false,
            error := some (insufficientCardsError requestedCount
              (getTotalAvailableCards selectedDeckIds allCards)),
            maxAvailable := some (getTotalAvailableCards selectedDeckIds allCards : Int) }) ∧
      (selectedDeckIds ≠ [] → 0 < requestedCount →
        getTotalAvailableCards selectedDeckIds allCards ≠ 0 →
        requestedCount ≤ (getTotalAvailableCards selectedDeckIds allCards : Int) →
        validateCardMixingParams selectedDeckIds requestedCount allCards =
          { valid := true, error := none, maxAvailable := none }) := by
  intro selectedDeckIds requestedCount allCards
  refine ⟨?_, ?_, ?_, ?_, ?_⟩
  · intro h
    simp [validateCardMixingParams, h]
  · intro h hc
    have hlen : ¬ selectedDeckIds.length = 0 := by
      simpa [List.length_eq_zero] using h
    simp [validateCardMixingParams, hlen, hc]
  · intro h hc ht
    have hlen : ¬ selectedDeckIds.length = 0 := by
      simpa [List.length_eq_zero] using h
    have hc' : ¬ requestedCount ≤ 0 := by omega
    simp [validateCardMixingParams, hlen, hc', ht]
  · intro h hc ht hlt
    have hlen : ¬ selectedDeckIds.length = 0 := by
      simpa [List.length_eq_zero] using h
    have hc' : ¬ requestedCount ≤ 0 := by omega
    simp [validateCardMixingParams, hlen, hc', ht, hlt]
  · intro h hc ht hle
    have hlen : ¬ selectedDeckIds.length = 0 := by
      simpa [List.length_eq_zero] using h
    have hc' : ¬ requestedCount ≤ 0 := by omega
    have hlt' : ¬ (getTotalAvailableCards selectedDeckIds allCards : Int) < requestedCount := by
      omega
    simp [validateCardMixingParams, hlen, hc', ht, hlt']

/-- Witness for claim C2 at the spec's own example:
`validate(['d1'], 5, {d1:[c1,c2,c3]})` fails with the
`InsufficientCards` message and `maxAvailable = 3`. -/
theorem validateCardMixingParams_ordered_witness :
    (["d1"] : List String) ≠ [] ∧ (0 : Int) < 5 ∧
    getTotalAvailableCards ["d1"] wCards3 ≠ 0 ∧
    (getTotalAvailableCards ["d1"] wCards3 : Int) < 5 ∧
    validateCardMixingParams ["d1"] 5 wCards3 =
      { valid := false,
        error := some (insufficientCardsError 5 (getTotalAvailableCards ["d1"] wCards3)),
        maxAvailable := some (getTotalAvailableCards ["d1"] wCards3 : Int) } :=
  ⟨by decide, by decide, by decide, by decide,
    (validateCardMixingParams_ordered ["d1"] 5 wCards3).2.2.2.1
      (by decide) (by decide) (by decide) (by decide)⟩

/-- Square root of ten, for evaluating the dynamic-grid branch. -/
theorem sqrt_ten_eq : Nat.sqrt 10 = 3 := by
  have h1 : 3 ≤ Nat.sqrt 10 := Nat.le_sqrt.mpr (by norm_num)
  have h2 : Nat.sqrt 10 < 4 := Nat.sqrt_lt.mpr (by norm_num)
  omega

/-- Ceiling square root of ten. -/
theorem ceilSqrt_ten_eq : ceilSqrt 10 = 4 := by
  rw [ceilSqrt, sqrt_ten_eq]
  norm_num

/-- Value of the layout function at ten cards: four columns, three rows. -/
theorem calculateGridLayout_ten : calculateGridLayout 10 = { rows := 3, cols := 4 } := by
  rw [calculateGridLayout, if_neg (by omega), if_neg (by omega), if_neg (by omega),
    if_neg (by omega)]
  norm_num [ceilDiv]
  rw [show Int.toNat 10 = 10 from rfl, ceilSqrt_ten_eq]
  norm_num

/-- Counterexample to claim C4: under the claim's `{rows, cols}` pair
convention, `calculateGridLayout 10` is `{rows := 3, cols := 4}`
(`cols = ceil(sqrt 10) = 4`, `rows = ceil(10 / 4) = 3`), not the claimed
`{rows := 4, cols := 3}`. -/
theorem calculateGridLayout_ten_counterexample :
    calculateGridLayout 10 = { rows := 3, cols := 4 } ∧
    calculateGridLayout 10 ≠ { rows := 4, cols := 3 } := by
  refine ⟨calculateGridLayout_ten, ?_⟩
  rw [calculateGridLayout_ten]
  decide

/-- Claim C4 (amended): `calculateGridLayout` reproduces the fixed
breakpoints — `0 ↦ {0,0}`; `1..3 ↦` one row with `cols = cardCount`;
`4..6 ↦` two rows with `cols = ⌈cardCount/2⌉`; `7..9 ↦` three rows with
`cols = ⌈cardCount/3⌉`; `10+ ↦ cols = ⌈√cardCount⌉` and
`rows = ⌈cardCount/cols⌉` — and in particular `layout 3 = {1,3}`,
`layout 4 = {2,2}`, `layout 6 = {2,3}`, `layout 7 = {3,3}`,
`layout 9 = {3,3}`, and `layout 10 = {rows := 3, cols := 4}` (the
claim's `{4,3}` with rows and columns transposed). -/
theorem calculateGridLayout_breakpoints :
    (calculateGridLayout 0 = { rows := 0, cols := 0 }) ∧
    (∀ n : Int, 1 ≤ n → n ≤ 3 →
      calculateGridLayout n = { rows := 1, cols := n }) ∧
    (∀ n : Int, 4 ≤ n → n ≤ 6 →
      calculateGridLayout n = { rows := 2, cols := (ceilDiv n.toNat 2 : Nat) }) ∧
    (∀ n : Int, 7 ≤ n → n ≤ 9 →
      calculateGridLayout n = { rows := 3, cols := (ceilDiv n.toNat 3 : Nat) }) ∧
    (∀ n : Int, 10 ≤ n →
      calculateGridLayout n =
        { rows := (ceilDiv n.toNat (ceilSqrt n.toNat) : Nat),
          cols := (ceilSqrt n.toNat : Nat) }) ∧
    calculateGridLayout 3 = { rows := 1, cols := 3 } ∧
    calculateGridLayout 4 = { rows := 2, cols := 2 } ∧
    calculateGridLayout 6 = { rows := 2, cols := 3 } ∧
    calculateGridLayout 7 = { rows := 3, cols := 3 } ∧
    calculateGridLayout 9 = { rows := 3, cols := 3 } ∧
    calculateGridLayout 10 = { rows := 3, cols := 4 } := by
  refine ⟨by decide, ?_, ?_, ?_, ?_, by decide, by decide, by decide,
    by decide, by decide, calculateGridLayout_ten⟩
  · intro n h1 h2
    rw [calculateGridLayout, if_neg (by omega), if_pos (by omega)]
  · intro n h1 h2
    rw [calculateGridLayout, if_neg (by omega), if_neg (by omega), if_pos (by omega)]
  · intro n h1 h2
    rw [calculateGridLayout, if_neg (by omega), if_neg (by omega), if_neg (by omega),
      if_pos (by omega)]
  · intro n h1
    rw [calculateGridLayout, if_neg (by omega), if_neg (by omega), if_neg (by omega),
      if_neg (by omega)]

/-- Witness for claim C4 (amended) at `n = 5`: the `4..6` branch gives
two rows and `⌈5/2⌉ = 3` columns. -/
theorem calculateGridLayout_breakpoints_witness :
    (1 : Int) ≤ 2 ∧ (2 : Int) ≤ 3 ∧ (4 : Int) ≤ 5 ∧ (5 : Int) ≤ 6 ∧
    calculateGridLayout 2 = { rows := 1, cols := 2 } ∧
    calculateGridLayout 5 = { rows := 2, cols := (ceilDiv (5 : Int).toNat 2 : Nat) } :=
  ⟨by decide, by decide, by decide, by decide,
    calculateGridLayout_breakpoints.2.1 2 (by decide) (by decide),
    calculateGridLayout_breakpoints.2.2.1 5 (by decide) (by decide)⟩

/-- Ceiling division provides capacity: `m ≤ ⌈m/b⌉ * b` for `b > 0`. -/
theorem le_ceilDiv_mul (m b : Nat) (hb : 0 < b) : m ≤ ceilDiv m b * b := by
  unfold ceilDiv
  have h1 := Nat.div_add_mod (m + b - 1) b
  have h2 : (m + b - 1) % b < b := Nat.mod_lt _ hb
  have h3 : b * ((m + b - 1) / b) = ((m + b - 1) / b) * b := Nat.mul_comm _ _
  omega

/-- The ceiling square root of a positive number is positive. -/
theorem ceilSqrt_pos (n : Nat) (hn : 0 < n) : 0 < ceilSqrt n := by
  unfold ceilSqrt
  split
  · rename_i h
    rcases Nat.eq_zero_or_pos (Nat.sqrt n) with h0 | h0
    · rw [h0] at h
      omega
    · exact h0
  · omega

/-- Claim C10: for every card count at least one, the computed grid has
capacity for every card: `rows * cols ≥ cardCount` in each branch of
`calculateGridLayout`. -/
theorem calculateGridLayout_capacity (n : Int) (h : 1 ≤ n) :
    n ≤ (calculateGridLayout n).rows * (calculateGridLayout n).cols := by
  have hn : ((n.toNat : Int)) = n := Int.toNat_of_nonneg (by omega)
  rw [calculateGridLayout]
  split_ifs with h0 h3 h6 h9
  · omega
  · simp only
    omega
  · simp only
    have := le_ceilDiv_mul n.toNat 2 (by omega)
    have hcast : (n.toNat : Int) ≤ ((ceilDiv n.toNat 2 * 2 : Nat) : Int) := by
      exact_mod_cast this
    push_cast at hcast
    omega
  · simp only
    have := le_ceilDiv_mul n.toNat 3 (by omega)
    have hcast : (n.toNat : Int) ≤ ((ceilDiv n.toNat 3 * 3 : Nat) : Int) := by
      exact_mod_cast this
    push_cast at hcast
    omega
  · simp only
    have hpos : 0 < ceilSqrt n.toNat := ceilSqrt_pos n.toNat (by omega)
    have := le_ceilDiv_mul n.toNat (ceilSqrt n.toNat) hpos
    have hcast : (n.toNat : Int) ≤
        ((ceilDiv n.toNat (ceilSqrt n.toNat) * ceilSqrt n.toNat : Nat) : Int) := by
      exact_mod_cast this
    push_cast at hcast
    omega

/-- Witness for claim C10 at `n = 10`: `3 * 4 ≥ 10`. -/
theorem calculateGridLayout_capacity_witness :
    (1 : Int) ≤ 10 ∧
    (10 : Int) ≤ (calculateGridLayout 10).rows * (calculateGridLayout 10).cols :=
  ⟨by decide, calculateGridLayout_capacity 10 (by decide)⟩

/-- Counterexample to claim C8: on an absent durable document,
`getRecentMixingSessions` does write to the durable store — the
underlying `getStorageData` call initializes storage and persists the
empty document. -/
theorem getRecentMixingSessions_writes_on_absent :
    (getRecentMixingSessions none).wrote = true ∧
    (getRecentMixingSessions none).store = some emptyStorageData := by
  constructor <;> rfl

/-- Claim C8 (amended): `getRecentMixingSessions` returns the first 5
entries of the current session list (all of them when fewer than 5
exist) and, whenever a durable document is present, performs no write
and leaves the stored state unchanged; when the document is absent it
initializes storage, writing the empty document, and returns the empty
list. -/
theorem getRecentMixingSessions_spec :
    (∀ d : FlashcardStorage,
      getRecentMixingSessions (some d) =
        { result := d.mixingSessions.take 5, store := some d, wrote := false }) ∧
    getRecentMixingSessions none =
      { result := [], store := some emptyStorageData, wrote := true } := by
  constructor
  · intro d
    rfl
  · rfl

/-- Claim C7: `cleanupOldMixingSessions` keeps exactly the sessions whose
timestamp is newer than thirty days before now: an entry older than the
cutoff is absent afterwards, and one from 29 days ago (or anything newer
than the cutoff) survives. The cleaned document is saved immediately. -/
theorem cleanupOldMixingSessions_spec :
    ∀ (now : Int) (d : FlashcardStorage),
      ((cleanupOldMixingSessions now (some d)).store =
        some { d with mixingSessions :=
          d.mixingSessions.filter fun s => now - 30 * msPerDay < s.timestamp }) ∧
      ((cleanupOldMixingSessions now (some d)).wrote = true) ∧
      (∀ s : CardMixingSession,
        s ∈ storedSessions (cleanupOldMixingSessions now (some d)).store ↔
          s ∈ d.mixingSessions ∧ now - 30 * msPerDay < s.timestamp) ∧
      (∀ s : CardMixingSession, s ∈ d.mixingSessions →
        s.timestamp < now - 30 * msPerDay →
        s ∉ storedSessions (cleanupOldMixingSessions now (some d)).store) ∧
      (∀ s : CardMixingSession, s ∈ d.mixingSessions →
        s.timestamp = now - 29 * msPerDay →
        s ∈ storedSessions (cleanupOldMixingSessions now (some d)).store) := by
  intro now d
  have hmem : ∀ s : CardMixingSession,
      s ∈ storedSessions (cleanupOldMixingSessions now (some d)).store ↔
        s ∈ d.mixingSessions ∧ now - 30 * msPerDay < s.timestamp := by
    intro s
    simp [cleanupOldMixingSessions, getStorageData, storedSessions, List.mem_filter]
  refine ⟨rfl, rfl, hmem, ?_, ?_⟩
  · intro s hs hold
    rw [hmem]
    rintro ⟨-, hgt⟩
    omega
  · intro s hs hts
    rw [hmem]
    refine ⟨hs, ?_⟩
    rw [hts]
    have : (0 : Int) < msPerDay := by decide
    omega

/-- Witness for claim C7: at `now = 100 * msPerDay`, the 31-day-old
session is dropped by cleanup and the 29-day-old session survives. -/
theorem cleanupOldMixingSessions_spec_witness :
    wOldSession ∈ wStorageTwoSessions.mixingSessions ∧
    wOldSession.timestamp < 100 * msPerDay - 30 * msPerDay ∧
    wOldSession ∉
      storedSessions (cleanupOldMixingSessions (100 * msPerDay) (some wStorageTwoSessions)).store ∧
    wNewSession ∈ wStorageTwoSessions.mixingSessions ∧
    wNewSession.timestamp = 100 * msPerDay - 29 * msPerDay ∧
    wNewSession ∈
      storedSessions (cleanupOldMixingSessions (100 * msPerDay) (some wStorageTwoSessions)).store :=
  ⟨by decide, by decide,
    (cleanupOldMixingSessions_spec (100 * msPerDay) wStorageTwoSessions).2.2.2.1
      wOldSession (by decide) (by decide),
    by decide, by decide,
    (cleanupOldMixingSessions_spec (100 * msPerDay) wStorageTwoSessions).2.2.2.2
      wNewSession (by decide) (by decide)⟩

/-- Truncating after appending an already-truncated tail is the same as
truncating the plain concatenation. -/
theorem take_append_take {α : Type} (X Y : List α) (n : Nat) :
    (X ++ Y.take n).take n = (X ++ Y).take n := by
  rw [List.take_append_eq_append_take, List.take_append_eq_append_take, List.take_take,
    Nat.min_eq_left (Nat.sub_le n X.length)]

/-- Recording a batch of sessions in order onto a document whose session
list holds at most 10 entries leaves the reversed batch prepended to the
old list, truncated to 10. -/
theorem recordAll_storedSessions (entries : List CardMixingSession) :
    ∀ d : FlashcardStorage, d.mixingSessions.length ≤ 10 →
      storedSessions (recordAll entries (some d)) =
        (entries.reverse ++ d.mixingSessions).take 10 := by
  induction entries with
  | nil =>
    intro d hd
    simp [recordAll, storedSessions, List.take_of_length_le hd]
  | cons e rest ih =>
    intro d hd
    have hstep : recordAll (e :: rest) (some d) =
        recordAll rest (some { d with mixingSessions :=
          (({ id := e.id, selectedDeckIds := e.selectedDeckIds,
              cardCount := e.cardCount, timestamp := e.timestamp } :
            CardMixingSession) :: d.mixingSessions).take 10 }) := rfl
    have he : ({ id := e.id, selectedDeckIds := e.selectedDeckIds,
                 cardCount := e.cardCount, timestamp := e.timestamp } :
          CardMixingSession) = e := rfl
    rw [hstep, he, ih _ (List.length_take_le 10 _)]
    simp only [List.reverse_cons, List.append_assoc, List.singleton_append]
    exact take_append_take rest.reverse (e :: d.mixingSessions) 10

/-- Claim C6: `saveMixingSession` gives the new session the supplied
fresh identifier and current timestamp, prepends it, truncates the list
to its first 10 entries, and persists immediately; the stored list
afterwards holds at most 10 sessions; recording 11 sessions starting
from an empty document leaves exactly the 10 most recent,
most-recent-first. -/
theorem saveMixingSession_spec :
    (∀ (now : Int) (freshId : String) (ids : List String) (cnt : Int)
        (d : FlashcardStorage),
      (saveMixingSession now freshId ids cnt (some d)).result =
        { id := freshId, selectedDeckIds := ids, cardCount := cnt,
          timestamp := now } ∧
      (saveMixingSession now freshId ids cnt (some d)).store =
        some { d with mixingSessions :=
          (({ id := freshId, selectedDeckIds := ids, cardCount := cnt,
              timestamp := now } : CardMixingSession) ::
            d.mixingSessions).take 10 } ∧
      (saveMixingSession now freshId ids cnt (some d)).wrote = true ∧
      (storedSessions (saveMixingSession now freshId ids cnt (some d)).store).length ≤ 10) ∧
    (∀ entries : List CardMixingSession, entries.length = 11 →
      storedSessions (recordAll entries (some emptyStorageData)) =
        entries.reverse.take 10) := by
  constructor
  · intro now freshId ids cnt d
    exact ⟨rfl, rfl, rfl, List.length_take_le 10 _⟩
  · intro entries hlen
    rw [recordAll_storedSessions entries emptyStorageData (by simp [emptyStorageData])]
    simp [emptyStorageData]

/-- Witness for claim C6: recording the eleven sessions of `wSessions11`
onto the empty document leaves exactly the last ten, most recent
first. -/
theorem saveMixingSession_spec_witness :
    wSessions11.length = 11 ∧
    storedSessions (recordAll wSessions11 (some emptyStorageData)) =
      wSessions11.reverse.take 10 :=
  ⟨by decide, saveMixingSession_spec.2 wSessions11 (by decide)⟩

/-- Writing back the entry already at position `i` leaves a list
unchanged. -/
theorem set_get_self {α : Type} :
    ∀ (l : List α) (i : Nat) (h : i < l.length), l.set i (l.get ⟨i, h⟩) = l
  | [], i, h => absurd h (by simp)
  | _ :: _, 0, _ => rfl
  | a :: t, i + 1, h =>
    congrArg (a :: ·) (set_get_self t i (by simpa using h))

/-- Moving an element to the front in exchange for the entry at
position `k` is a permutation. -/
theorem cons_perm_set {α : Type} :
    ∀ (t : List α) (k : Nat) (hk : k < t.length) (b : α),
      (b :: t).Perm (t.get ⟨k, hk⟩ :: t.set k b) := by
  intro t
  induction t with
  | nil => intro k hk b; exact absurd hk (by simp)
  | cons x t' ih =>
    intro k hk b
    cases k with
    | zero => exact List.Perm.swap x b t'
    | succ k =>
      have hk' : k < t'.length := by simpa using hk
      exact ((List.Perm.swap x b t').trans ((ih k hk' b).cons x)).trans
        (List.Perm.swap (t'.get ⟨k, hk'⟩) x (t'.set k b))

/-- Exchanging the entries at positions `i < j` of a list through two
`set` operations is a permutation. -/
theorem set_set_perm {α : Type} :
    ∀ (l : List α) (i j : Nat) (hij : i < j) (hj : j < l.length),
      ((l.set i (l.get ⟨j, hj⟩)).set j
        (l.get ⟨i, Nat.lt_trans hij hj⟩)).Perm l := by
  intro l
  induction l with
  | nil => intro i j hij hj; exact absurd hj (by simp)
  | cons a t ih =>
    intro i j hij hj
    cases i with
    | zero =>
      cases j with
      | zero => exact absurd hij (by omega)
      | succ k =>
        have hk : k < t.length := by simpa using hj
        exact (cons_perm_set t k hk a).symm
    | succ m =>
      cases j with
      | zero => exact absurd hij (by omega)
      | succ k =>
        have hk : k < t.length := by simpa using hj
        have hmk : m < k := by omega
        exact (ih m k hmk hk).cons a

/-- A single Fisher–Yates swap is a permutation. -/
theorem listSwap_perm {α : Type} (l : List α) (i j : Nat) :
    (listSwap l i j).Perm l := by
  unfold listSwap
  split
  · rename_i h
    obtain ⟨hi, hj⟩ := h
    rcases Nat.lt_trichotomy i j with hij | rfl | hji
    · exact set_set_perm l i j hij hj
    · rw [List.set_set, set_get_self]
    · rw [List.set_comm _ _ _ (Nat.ne_of_gt hji)]
      exact set_set_perm l j i hji hi
  · exact List.Perm.refl l

/-- The whole Fisher–Yates loop is a permutation, for every random
oracle. -/
theorem fisherYatesRun_perm {α : Type} (rand : Nat → Nat) :
    ∀ (i : Nat) (l : List α), (fisherYatesRun rand i l).Perm l := by
  intro i
  induction i with
  | zero => intro l; exact List.Perm.refl l
  | succ i ih =>
    intro l
    exact (ih _).trans (listSwap_perm l (i + 1) (rand (i + 1) % (i + 1 + 1)))

/-- `shuffleCards` returns a permutation of its input, for every random
oracle. -/
theorem shuffleCards_perm {α : Type} (rand : Nat → Nat) (l : List α) :
    (shuffleCards rand l).Perm l :=
  fisherYatesRun_perm rand (l.length - 1) l

/-- `shuffleCards` preserves length. -/
theorem shuffleCards_length {α : Type} (rand : Nat → Nat) (l : List α) :
    (shuffleCards rand l).length = l.length :=
  (shuffleCards_perm rand l).length_eq

/-- Counterexample to claim C3: for the negative integer `count = -1`
(which satisfies `count < items.length`), `selectRandomCards` on a
three-card pool returns 2 elements (JavaScript `slice(0, -1)` drops the
last element), not "exactly count elements". -/
theorem selectRandomCards_negative_count_counterexample :
    ((-1 : Int) < (wCards3List.length : Int)) ∧
    (selectRandomCards wRand wCards3List (-1)).length = 2 ∧
    ((selectRandomCards wRand wCards3List (-1)).length : Int) ≠ -1 := by
  refine ⟨by decide, by decide, by decide⟩

/-- Claim C3 (amended): for every non-negative integer `count`, if
`count ≥ items.length` then `selectRandomCards` returns a permutation of
`items`; if `count < items.length` it returns the first `count` elements
of a permutation of `items` (the full shuffle), hence exactly `count`
elements drawn without replacement. The embedding is pure, so the input
list is never mutated. -/
theorem selectRandomCards_spec (rand : Nat → Nat) (items : List Card)
    (count : Int) (hc : 0 ≤ count) :
    ((items.length : Int) ≤ count →
      (selectRandomCards rand items count).Perm items) ∧
    (count < (items.length : Int) →
      selectRandomCards rand items count =
        (shuffleCards rand items).take count.toNat ∧
      (shuffleCards rand items).Perm items ∧
      (selectRandomCards rand items count).length = count.toNat) := by
  constructor
  · intro hge
    rw [selectRandomCards, if_pos (by omega)]
    exact shuffleCards_perm rand items
  · intro hlt
    have hsel : selectRandomCards rand items count =
        (shuffleCards rand items).take count.toNat := by
      rw [selectRandomCards, if_neg (by omega), jsSliceFromZero,
        if_neg (by omega)]
    refine ⟨hsel, shuffleCards_perm rand items, ?_⟩
    rw [hsel, List.length_take, shuffleCards_length]
    omega

/-- Witness for claim C3 (amended) at a three-card pool and `count = 2`:
the result is the two-element prefix of a full shuffle. -/
theorem selectRandomCards_spec_witness :
    (0 : Int) ≤ 2 ∧ ((2 : Int) < (wCards3List.length : Int)) ∧
    (selectRandomCards wRand wCards3List 2 =
        (shuffleCards wRand wCards3List).take (2 : Int).toNat ∧
      (shuffleCards wRand wCards3List).Perm wCards3List ∧
      (selectRandomCards wRand wCards3List 2).length = (2 : Int).toNat) :=
  ⟨by decide, by decide,
    (selectRandomCards_spec wRand wCards3List 2 (by decide)).2 (by decide)⟩

/-- Claim C5: `mixCards` is a total function — on every input it returns
either the validator's failure verbatim with no `mixedCards`, or the
fully decorated success result. In this pure embedding pool
construction, sampling and decoration are total, so the `catch` branch
of the source is unreachable and no exception escapes. -/
theorem mixCards_total_spec :
    ∀ (rand : Nat → Nat) (selectedDeckIds : List String)
      (requestedCount : Int) (allCards : String → Option (List Card))
      (allDecks : String → Option Deck),
      ((validateCardMixingParams selectedDeckIds requestedCount allCards).valid = false →
        mixCards rand selectedDeckIds requestedCount allCards allDecks =
          { success := false, mixedCards := none,
            error := (validateCardMixingParams selectedDeckIds requestedCount allCards).error }) ∧
      ((validateCardMixingParams selectedDeckIds requestedCount allCards).valid = true →
        mixCards rand selectedDeckIds requestedCount allCards allDecks =
          { success := true,
            mixedCards := some (createMixedCards
              (selectRandomCards rand
                (combineCardsFromDecks selectedDeckIds allCards) requestedCount)
              allDecks),
            error := none }) := by
  intro rand selectedDeckIds requestedCount allCards allDecks
  constructor
  · intro hv
    rw [mixCards]
    simp [hv]
  · intro hv
    rw [mixCards]
    simp [hv]

/-- Witness for claim C5 at the failing input of the empty deck
selection: the `NoDecksSelected` failure is propagated verbatim with no
partial output. -/
theorem mixCards_total_spec_witness :
    (validateCardMixingParams [] 5 wCards3).valid = false ∧
    mixCards wRand [] 5 wCards3 wDecks =
      { success := false, mixedCards := none,
        error := (validateCardMixingParams [] 5 wCards3).error } :=
  ⟨by decide, (mixCards_total_spec wRand [] 5 wCards3 wDecks).1 (by decide)⟩

/-- A passing validation implies a positive requested count bounded by
the total available count. -/
theorem validate_valid_facts (selectedDeckIds : List String)
    (requestedCount : Int) (allCards : String → Option (List Card))
    (h : (validateCardMixingParams selectedDeckIds requestedCount allCards).valid = true) :
    0 < requestedCount ∧
      requestedCount ≤ (getTotalAvailableCards selectedDeckIds allCards : Int) := by
  simp only [validateCardMixingParams] at h
  split_ifs at h with h1 h2 h3 h4
  omega

/-- For a positive count within capacity, the sampler returns exactly
`count` cards. -/
theorem selectRandomCards_length_of (rand : Nat → Nat) (cards : List Card)
    (count : Int) (h1 : 0 < count) (h2 : count ≤ (cards.length : Int)) :
    ((selectRandomCards rand cards count).length : Int) = count := by
  rw [selectRandomCards]
  split_ifs with hge
  · rw [shuffleCards_length]
    omega
  · rw [jsSliceFromZero, if_neg (by omega), List.length_take, shuffleCards_length]
    omega

/-- Claim C1 (amended): every successful `mixCards` call returns exactly
`requestedCount` mixed cards; the element at output index `i` has
`position = i` (positions strictly increasing from 0), and its
`deckName`/`deckColor` are the owning deck's name/color from `allDecks`,
falling back to "Unknown Deck" and the neutral gray `#6B7280` when
`allDecks` has no entry for the card's `deckId` — or when the stored
name (resp. color) is the empty string, which JavaScript `||` also sends
to the fallback. -/
theorem mixCards_success_spec :
    ∀ (rand : Nat → Nat) (selectedDeckIds : List String)
      (requestedCount : Int) (allCards : String → Option (List Card))
      (allDecks : String → Option Deck),
      (mixCards rand selectedDeckIds requestedCount allCards allDecks).success = true →
      ∃ mcs : List MixedCard,
        (mixCards rand selectedDeckIds requestedCount allCards allDecks).mixedCards =
          some mcs ∧
        (mcs.length : Int) = requestedCount ∧
        ∀ (i : Nat) (hi : i < mcs.length),
          (mcs.get ⟨i, hi⟩).position = i ∧
          (mcs.get ⟨i, hi⟩).deckName =
            jsOrString ((allDecks (mcs.get ⟨i, hi⟩).deckId).map Deck.name)
              "Unknown Deck" ∧
          (mcs.get ⟨i, hi⟩).deckColor =
            jsOrString ((allDecks (mcs.get ⟨i, hi⟩).deckId).map Deck.color)
              "#6B7280" := by
  intro rand selectedDeckIds requestedCount allCards allDecks hsucc
  cases hb : (validateCardMixingParams selectedDeckIds requestedCount allCards).valid with
  | false =>
    rw [mixCards] at hsucc
    simp [hb] at hsucc
  | true =>
    obtain ⟨hpos, hle⟩ :=
      validate_valid_facts selectedDeckIds requestedCount allCards hb
    rw [getTotalAvailableCards_eq_length] at hle
    have hsel : ((selectRandomCards rand
        (combineCardsFromDecks selectedDeckIds allCards) requestedCount).length : Int) =
        requestedCount :=
      selectRandomCards_length_of rand _ requestedCount hpos hle
    refine ⟨createMixedCards
      (selectRandomCards rand (combineCardsFromDecks selectedDeckIds allCards)
        requestedCount) allDecks, ?_, ?_, ?_⟩
    · rw [mixCards]
      simp [hb]
    · rw [createMixedCards, List.length_mapIdx]
      exact hsel
    · intro i hi
      simp [createMixedCards, List.get_eq_getElem, List.getElem_mapIdx]

/-- Counterexample to claim C1: a successful `mixCards` call whose
drawn card's deck exists in `allDecks` but has the empty string as its
name; the decorated `deckName` is the sentinel "Unknown Deck" rather
than the deck's stored name, because JavaScript `||` treats the empty
string as falsy. -/
theorem mixCards_empty_name_counterexample :
    (mixCards wRand ["d1"] 1 wCards1 wDecksEmptyName).success = true ∧
    (wDecksEmptyName "d1").map Deck.name = some "" ∧
    ((mixCards wRand ["d1"] 1 wCards1 wDecksEmptyName).mixedCards.getD []).map
      MixedCard.deckName = ["Unknown Deck"] := by
  refine ⟨by decide, by decide, by decide⟩

/-- Witness for claim C1 (amended) at a one-card, one-deck mix. -/
theorem mixCards_success_spec_witness :
    (mixCards wRand ["d1"] 1 wCards1 wDecks).success = true ∧
    (∃ mcs : List MixedCard,
      (mixCards wRand ["d1"] 1 wCards1 wDecks).mixedCards = some mcs ∧
      (mcs.length : Int) = 1 ∧
      ∀ (i : Nat) (hi : i < mcs.length),
        (mcs.get ⟨i, hi⟩).position = i ∧
        (mcs.get ⟨i, hi⟩).deckName =
          jsOrString ((wDecks (mcs.get ⟨i, hi⟩).deckId).map Deck.name)
            "Unknown Deck" ∧
        (mcs.get ⟨i, hi⟩).deckColor =
          jsOrString ((wDecks (mcs.get ⟨i, hi⟩).deckId).map Deck.color)
            "#6B7280") :=
  ⟨by decide, mixCards_success_spec wRand ["d1"] 1 wCards1 wDecks (by decide)⟩
